import Mathlib

/-!
# The slice façade of the B-tree store (`src/btree/slice.cc`)

A shallow embedding of `btree_slice_t`: the CAS/timestamp generator
(`gen_castime`, the two `generate_if_necessary` overloads), the superblock
initialiser (`create`) and the operation dispatcher (`set`, `add`, ...,
`delete_key`).

Machine integers are natural numbers with explicit reduction modulo `2^w`.
The wall clock (`current_time()`) is an input of every function that reads it.
-/

namespace Slice

/-! ## Data model -/

/-- Modelled from the spec: the typedef `cas_t` is not among the sources. The
spec makes a CAS token a 64-bit value, and `slice.cc` builds one from a
`uint64_t` expression. -/
abbrev cas_t := Nat

/-- Modelled from the spec: the declaration of `repli_timestamp` is not among
the sources. `slice.cc` only uses its field `time` and its static member
`invalid`; the spec places the time in the high 32 bits of a token, so `time`
is a 32-bit unsigned value. -/
structure repli_timestamp where
  time : Nat
deriving DecidableEq, Repr

/-- Modelled from the spec: the definition of `repli_timestamp::invalid` is not
among the sources. The spec calls it a reserved sentinel value; it is taken to
be the all-ones 32-bit value `uint32_t(-1)`. -/
def repli_timestamp.invalid : repli_timestamp := ⟨2 ^ 32 - 1⟩

/-- Modelled from the spec: the declaration of `castime_t` is not among the
sources. `slice.cc` builds it with `castime_t(cas, timestamp)`; the spec calls
it a CAS-time pair. -/
structure castime_t where
  proposed_cas : cas_t
  timestamp : repli_timestamp
deriving DecidableEq, Repr

/-- Modelled from the spec: `castime_t::dummy()` is not among the sources. The
spec describes a reserved "dummy"/unset CAS-time pair; it is taken to be the
pair of the zero token and the invalid timestamp. -/
def castime_t.dummy : castime_t := ⟨0, repli_timestamp.invalid⟩

/-- Modelled from the spec: `castime_t::is_dummy()` is not among the sources.
The spec says the input "is the dummy sentinel"; the test compares both
components with those of `castime_t.dummy`. -/
def castime_t.is_dummy (c : castime_t) : Bool :=
  c.proposed_cas == 0 && c.timestamp.time == repli_timestamp.invalid.time

/-- The counter component of a token: the low 32 bits of its `cas`. -/
def castime_t.counter (c : castime_t) : Nat := c.proposed_cas % 2 ^ 32

/-- The time component of a token: the high 32 bits of its `cas`. -/
def castime_t.high (c : castime_t) : Nat := c.proposed_cas / 2 ^ 32

/-- Modelled from the spec: the class declaration of `btree_slice_t` is not
among the sources. These are the members that `slice.cc` itself reads and
writes: the per-slice counter `cas_counter_` and the replication sink
`masterstore_` (a nullable pointer, here an optional handle). The spec makes
the counter the unsigned low 32 bits of a token, so it is a 32-bit unsigned
counter and `++cas_counter_` is an increment modulo `2^32`. The cache member is
external and is reached only through the delegates. -/
structure btree_slice_t where
  cas_counter_ : Nat
  masterstore_ : Option Nat
deriving DecidableEq, Repr

/-- The member initialisers of the constructor `btree_slice_t::btree_slice_t`:
`cas_counter_(0)` and `masterstore_(masterstore)`. (Named `ctor` because a
structure and a function in its namespace cannot share one name.) -/
def btree_slice_t.ctor (masterstore : Option Nat) : btree_slice_t :=
  { cas_counter_ := 0, masterstore_ := masterstore }

/-! ## CAS/timestamp generator -/

/-- The method `btree_slice_t::gen_castime`, with the value read from `current_time()`
passed in:
`cas = (uint64_t(timestamp.time) << 32) | ++cas_counter_`. -/
def btree_slice_t.gen_castime (self : btree_slice_t) (current_time : repli_timestamp) :
    castime_t × btree_slice_t :=
  let timestamp := current_time
  let counter := (self.cas_counter_ + 1) % 2 ^ 32
  let cas : cas_t := ((timestamp.time <<< 32) % 2 ^ 64) ||| counter
  (⟨cas, timestamp⟩, { self with cas_counter_ := counter })

/-- The method `btree_slice_t::generate_if_necessary(castime_t)`:
`castime.is_dummy() ? gen_castime() : castime`. -/
def btree_slice_t.generate_if_necessary (self : btree_slice_t) (current_time : repli_timestamp)
    (castime : castime_t) : castime_t × btree_slice_t :=
  if castime.is_dummy then self.gen_castime current_time else (castime, self)

/-- The method `btree_slice_t::generate_if_necessary(repli_timestamp)`:
`timestamp.time == repli_timestamp::invalid.time ? current_time() : timestamp`.
It does not touch the slice. -/
def btree_slice_t.generate_if_necessary_timestamp (_self : btree_slice_t)
    (current_time : repli_timestamp) (timestamp : repli_timestamp) : repli_timestamp :=
  if timestamp.time == repli_timestamp.invalid.time then current_time else timestamp

/-- Successive `gen_castime` calls on one slice, one per clock reading, in call
order: the returned tokens and the slice afterwards. -/
def gen_castime_seq : List repli_timestamp → btree_slice_t → List castime_t × btree_slice_t
  | [], s => ([], s)
  | t :: ts, s =>
    let r := s.gen_castime t
    let rest := gen_castime_seq ts r.2
    (r.1 :: rest.1, rest.2)

/-! ## Operation dispatcher

The B-tree algorithms (`btree_get`, `btree_set`, ...) are external. Every
method takes its delegate as a function argument and returns the delegate's
result together with the slice as `slice.cc` leaves it. The delegates receive
`this`; they reach the cache through it and do not change `cas_counter_`, which
only `gen_castime` writes. -/

/-- Modelled from the spec: `store_key_t` is declared outside `slice.cc`. Keys
are passed through as pointers; the dispatcher never looks inside. -/
abbrev store_key_t := List Nat

/-- Modelled from the spec: `data_provider_t` is declared outside `slice.cc`.
Values are streamed by a data provider that is passed through untouched. -/
abbrev data_provider_t := List Nat

/-- Modelled from the spec: `mcflags_t` is declared outside `slice.cc`; the flags
are passed through untouched. -/
abbrev mcflags_t := Nat

/-- Modelled from the spec: `exptime_t` is declared outside `slice.cc`; the
expiration time is passed through untouched. -/
abbrev exptime_t := Nat

/-- Modelled from the spec: the enumeration is declared outside `slice.cc`.
These are the four operation-kind tags that `slice.cc` passes to `btree_set`. -/
inductive set_type_t where
  | set_type_set
  | set_type_add
  | set_type_replace
  | set_type_cas
deriving DecidableEq, Repr

/-- The method `btree_slice_t::get`: `btree_get(key, this)`. -/
def btree_slice_t.get {ρ : Type} (self : btree_slice_t)
    (btree_get : store_key_t → btree_slice_t → ρ) (key : store_key_t) : ρ × btree_slice_t :=
  (btree_get key self, self)

/-- The method `btree_slice_t::get_cas`:
`btree_get_cas(key, this, generate_if_necessary(castime))`. -/
def btree_slice_t.get_cas {ρ : Type} (self : btree_slice_t)
    (btree_get_cas : store_key_t → btree_slice_t → castime_t → ρ)
    (current_time : repli_timestamp) (key : store_key_t) (castime : castime_t) :
    ρ × btree_slice_t :=
  let tok := self.generate_if_necessary current_time castime
  (btree_get_cas key tok.2 tok.1, tok.2)

/-- The method `btree_slice_t::rget`:
`btree_rget_slice(this, start, end, left_open, right_open, max_results)`. -/
def btree_slice_t.rget {ρ : Type} (self : btree_slice_t)
    (btree_rget_slice : btree_slice_t → store_key_t → store_key_t → Bool → Bool → Nat → ρ)
    (start stop : store_key_t) (left_open right_open : Bool) (max_results : Nat) :
    ρ × btree_slice_t :=
  (btree_rget_slice self start stop left_open right_open max_results, self)

/-- The method `btree_slice_t::set`: `btree_set(key, this, data, set_type_set, flags,
exptime, 0, generate_if_necessary(castime))`. -/
def btree_slice_t.set {ρ : Type} (self : btree_slice_t)
    (btree_set : store_key_t → btree_slice_t → data_provider_t → set_type_t → mcflags_t →
      exptime_t → cas_t → castime_t → ρ)
    (current_time : repli_timestamp) (key : store_key_t) (data : data_provider_t)
    (flags : mcflags_t) (exptime : exptime_t) (castime : castime_t) : ρ × btree_slice_t :=
  let tok := self.generate_if_necessary current_time castime
  (btree_set key tok.2 data set_type_t.set_type_set flags exptime 0 tok.1, tok.2)

/-- The method `btree_slice_t::add`: `btree_set(key, this, data, set_type_add, flags,
exptime, 0, generate_if_necessary(castime))`. -/
def btree_slice_t.add {ρ : Type} (self : btree_slice_t)
    (btree_set : store_key_t → btree_slice_t → data_provider_t → set_type_t → mcflags_t →
      exptime_t → cas_t → castime_t → ρ)
    (current_time : repli_timestamp) (key : store_key_t) (data : data_provider_t)
    (flags : mcflags_t) (exptime : exptime_t) (castime : castime_t) : ρ × btree_slice_t :=
  let tok := self.generate_if_necessary current_time castime
  (btree_set key tok.2 data set_type_t.set_type_add flags exptime 0 tok.1, tok.2)

/-- The method `btree_slice_t::replace`: `btree_set(key, this, data, set_type_replace,
flags, exptime, 0, generate_if_necessary(castime))`. -/
def btree_slice_t.replace {ρ : Type} (self : btree_slice_t)
    (btree_set : store_key_t → btree_slice_t → data_provider_t → set_type_t → mcflags_t →
      exptime_t → cas_t → castime_t → ρ)
    (current_time : repli_timestamp) (key : store_key_t) (data : data_provider_t)
    (flags : mcflags_t) (exptime : exptime_t) (castime : castime_t) : ρ × btree_slice_t :=
  let tok := self.generate_if_necessary current_time castime
  (btree_set key tok.2 data set_type_t.set_type_replace flags exptime 0 tok.1, tok.2)

/-- The method `btree_slice_t::cas`: `btree_set(key, this, data, set_type_cas, flags,
exptime, unique, generate_if_necessary(castime))`. -/
def btree_slice_t.cas {ρ : Type} (self : btree_slice_t)
    (btree_set : store_key_t → btree_slice_t → data_provider_t → set_type_t → mcflags_t →
      exptime_t → cas_t → castime_t → ρ)
    (current_time : repli_timestamp) (key : store_key_t) (data : data_provider_t)
    (flags : mcflags_t) (exptime : exptime_t) (unique : cas_t) (castime : castime_t) :
    ρ × btree_slice_t :=
  let tok := self.generate_if_necessary current_time castime
  (btree_set key tok.2 data set_type_t.set_type_cas flags exptime unique tok.1, tok.2)

/-- The method `btree_slice_t::incr`:
`btree_incr_decr(key, this, true, amount, generate_if_necessary(castime))`. -/
def btree_slice_t.incr {ρ : Type} (self : btree_slice_t)
    (btree_incr_decr : store_key_t → btree_slice_t → Bool → Nat → castime_t → ρ)
    (current_time : repli_timestamp) (key : store_key_t) (amount : Nat) (castime : castime_t) :
    ρ × btree_slice_t :=
  let tok := self.generate_if_necessary current_time castime
  (btree_incr_decr key tok.2 true amount tok.1, tok.2)

/-- The method `btree_slice_t::decr`:
`btree_incr_decr(key, this, false, amount, generate_if_necessary(castime))`. -/
def btree_slice_t.decr {ρ : Type} (self : btree_slice_t)
    (btree_incr_decr : store_key_t → btree_slice_t → Bool → Nat → castime_t → ρ)
    (current_time : repli_timestamp) (key : store_key_t) (amount : Nat) (castime : castime_t) :
    ρ × btree_slice_t :=
  let tok := self.generate_if_necessary current_time castime
  (btree_incr_decr key tok.2 false amount tok.1, tok.2)

/-- The method `btree_slice_t::append`:
`btree_append_prepend(key, this, data, true, generate_if_necessary(castime))`. -/
def btree_slice_t.append {ρ : Type} (self : btree_slice_t)
    (btree_append_prepend : store_key_t → btree_slice_t → data_provider_t → Bool →
      castime_t → ρ)
    (current_time : repli_timestamp) (key : store_key_t) (data : data_provider_t)
    (castime : castime_t) : ρ × btree_slice_t :=
  let tok := self.generate_if_necessary current_time castime
  (btree_append_prepend key tok.2 data true tok.1, tok.2)

/-- The method `btree_slice_t::prepend`:
`btree_append_prepend(key, this, data, false, generate_if_necessary(castime))`. -/
def btree_slice_t.prepend {ρ : Type} (self : btree_slice_t)
    (btree_append_prepend : store_key_t → btree_slice_t → data_provider_t → Bool →
      castime_t → ρ)
    (current_time : repli_timestamp) (key : store_key_t) (data : data_provider_t)
    (castime : castime_t) : ρ × btree_slice_t :=
  let tok := self.generate_if_necessary current_time castime
  (btree_append_prepend key tok.2 data false tok.1, tok.2)

/-- The method `btree_slice_t::delete_key`:
`btree_delete(key, this, generate_if_necessary(timestamp))`. -/
def btree_slice_t.delete_key {ρ : Type} (self : btree_slice_t)
    (btree_delete : store_key_t → btree_slice_t → repli_timestamp → ρ)
    (current_time : repli_timestamp) (key : store_key_t) (timestamp : repli_timestamp) :
    ρ × btree_slice_t :=
  (btree_delete key self (self.generate_if_necessary_timestamp current_time timestamp), self)

/-! ## Sequences of operations on one slice -/

/-- What a delegate is handed as its version tag: a CAS-time pair (the set
family, incr/decr, append/prepend, get_cas) or a bare timestamp (delete). -/
inductive token_t where
  | castime (c : castime_t)
  | timestamp (t : repli_timestamp)
deriving DecidableEq, Repr

/-- One call of a public operation of the slice, with its arguments. -/
inductive store_op where
  | get (key : store_key_t)
  | get_cas (key : store_key_t) (castime : castime_t)
  | rget (start stop : store_key_t) (left_open right_open : Bool) (max_results : Nat)
  | set (key : store_key_t) (data : data_provider_t) (flags : mcflags_t) (exptime : exptime_t)
      (castime : castime_t)
  | add (key : store_key_t) (data : data_provider_t) (flags : mcflags_t) (exptime : exptime_t)
      (castime : castime_t)
  | replace (key : store_key_t) (data : data_provider_t) (flags : mcflags_t)
      (exptime : exptime_t) (castime : castime_t)
  | cas (key : store_key_t) (data : data_provider_t) (flags : mcflags_t) (exptime : exptime_t)
      (unique : cas_t) (castime : castime_t)
  | incr (key : store_key_t) (amount : Nat) (castime : castime_t)
  | decr (key : store_key_t) (amount : Nat) (castime : castime_t)
  | append (key : store_key_t) (data : data_provider_t) (castime : castime_t)
  | prepend (key : store_key_t) (data : data_provider_t) (castime : castime_t)
  | delete_key (key : store_key_t) (timestamp : repli_timestamp)
deriving DecidableEq, Repr

/-- Runs one operation with delegates that report the version tag they were
handed (`none` for `get` and `rget`, which are handed none). -/
def store_op.handed (op : store_op) (self : btree_slice_t) (current_time : repli_timestamp) :
    Option token_t × btree_slice_t :=
  match op with
  | .get key => self.get (fun _ _ => none) key
  | .get_cas key castime =>
    self.get_cas (fun _ _ tok => some (.castime tok)) current_time key castime
  | .rget start stop left_open right_open max_results =>
    self.rget (fun _ _ _ _ _ _ => none) start stop left_open right_open max_results
  | .set key data flags exptime castime =>
    self.set (fun _ _ _ _ _ _ _ tok => some (.castime tok)) current_time key data flags exptime
      castime
  | .add key data flags exptime castime =>
    self.add (fun _ _ _ _ _ _ _ tok => some (.castime tok)) current_time key data flags exptime
      castime
  | .replace key data flags exptime castime =>
    self.replace (fun _ _ _ _ _ _ _ tok => some (.castime tok)) current_time key data flags
      exptime castime
  | .cas key data flags exptime unique castime =>
    self.cas (fun _ _ _ _ _ _ _ tok => some (.castime tok)) current_time key data flags exptime
      unique castime
  | .incr key amount castime =>
    self.incr (fun _ _ _ _ tok => some (.castime tok)) current_time key amount castime
  | .decr key amount castime =>
    self.decr (fun _ _ _ _ tok => some (.castime tok)) current_time key amount castime
  | .append key data castime =>
    self.append (fun _ _ _ _ tok => some (.castime tok)) current_time key data castime
  | .prepend key data castime =>
    self.prepend (fun _ _ _ _ tok => some (.castime tok)) current_time key data castime
  | .delete_key key timestamp =>
    self.delete_key (fun _ _ tok => some (.timestamp tok)) current_time key timestamp

/-- A mutating operation invoked with the sentinel: one of set, add, replace,
cas, incr, decr, append, prepend with a dummy castime, or delete_key with a
timestamp whose time is the invalid one. -/
def store_op.mutation_with_sentinel : store_op → Bool
  | .get _ => false
  | .get_cas _ _ => false
  | .rget _ _ _ _ _ => false
  | .set _ _ _ _ castime => castime.is_dummy
  | .add _ _ _ _ castime => castime.is_dummy
  | .replace _ _ _ _ castime => castime.is_dummy
  | .cas _ _ _ _ _ castime => castime.is_dummy
  | .incr _ _ castime => castime.is_dummy
  | .decr _ _ castime => castime.is_dummy
  | .append _ _ castime => castime.is_dummy
  | .prepend _ _ castime => castime.is_dummy
  | .delete_key _ timestamp => timestamp.time == repli_timestamp.invalid.time

/-- A mutating operation that carries a castime (all but delete_key), invoked
with the dummy castime. -/
def store_op.castime_mutation_with_dummy : store_op → Bool
  | .delete_key _ _ => false
  | op => op.mutation_with_sentinel

/-- Whether the operation calls `gen_castime`: it carries a castime (get_cas
and every mutation but delete_key) and was given one for which `is_dummy()`
holds. -/
def store_op.generates : store_op → Bool
  | .get _ => false
  | .get_cas _ castime => castime.is_dummy
  | .rget _ _ _ _ _ => false
  | .set _ _ _ _ castime => castime.is_dummy
  | .add _ _ _ _ castime => castime.is_dummy
  | .replace _ _ _ _ castime => castime.is_dummy
  | .cas _ _ _ _ _ castime => castime.is_dummy
  | .incr _ _ castime => castime.is_dummy
  | .decr _ _ castime => castime.is_dummy
  | .append _ _ castime => castime.is_dummy
  | .prepend _ _ castime => castime.is_dummy
  | .delete_key _ _ => false

/-- The number of `gen_castime` calls in a run of operations. -/
def generations : List (store_op × repli_timestamp) → Nat
  | [] => 0
  | (op, _) :: rest => (if op.generates then 1 else 0) + generations rest

/-- Operations performed one after another on one slice, each with the clock
reading it would obtain: every operation paired with the tag its delegate was
handed, and the slice afterwards. -/
def run_ops : List (store_op × repli_timestamp) → btree_slice_t →
    List (store_op × Option token_t) × btree_slice_t
  | [], s => ([], s)
  | (op, t) :: rest, s =>
    let r := op.handed s t
    let tail := run_ops rest r.2
    ((op, r.1) :: tail.1, tail.2)

/-! ## Superblock initialiser -/

/-- Modelled from the spec: `block_id_t` is declared outside `slice.cc`: the
identifier of a page. -/
abbrev block_id_t := Nat

/-- Modelled from the spec: `block_magic_t` is declared outside `slice.cc`: the
type of the magic value of a page. -/
abbrev block_magic_t := Nat

/-- Modelled from the spec: the access modes are declared outside `slice.cc`:
the declared intent, read or write, of a transaction or a lock. -/
inductive access_t where
  | rwi_read
  | rwi_write
deriving DecidableEq, Repr

/-- Modelled from the spec: the declaration of `btree_superblock_t` is not among
the sources. A page seen through the superblock layout: the two fields the spec
names, `magic` and `root_block`, and the remaining bytes of the page. -/
structure btree_superblock_t where
  magic : block_magic_t
  root_block : block_id_t
  rest : List Nat
deriving DecidableEq, Repr

/-- Modelled from the spec: the cache is external. The contents of the store as
the cache presents them: the data of every page, by page id. -/
abbrev cache_t := block_id_t → btree_superblock_t

/-- Modelled from the spec: `transactor_t` is external: a scoped transaction
with a declared intent. -/
structure transactor_t where
  access : access_t
deriving DecidableEq, Repr

/-- Modelled from the spec: `buf_lock_t` is external: a scoped lock on one
page within a transaction, holding the page's data while it is locked. -/
structure buf_lock_t where
  block_id : block_id_t
  mode : access_t
  data : btree_superblock_t
deriving DecidableEq, Repr

/-- Modelled from the spec: acquiring a buffer lock on page `block_id` gives
access to that page's current data. -/
def buf_lock_t.acquire (cache : cache_t) (_transactor : transactor_t) (block_id : block_id_t)
    (mode : access_t) : buf_lock_t :=
  { block_id := block_id, mode := mode, data := cache block_id }

/-- Modelled from the spec: releasing a lock and committing the transaction
stores the locked page's data if the lock was a write lock, and changes nothing
otherwise. -/
def buf_lock_t.release (lock : buf_lock_t) (cache : cache_t) : cache_t :=
  match lock.mode with
  | .rwi_write => Function.update cache lock.block_id lock.data
  | .rwi_read => cache

/-- The function `btree_slice_t::create`, on the contents of the store: open a write
transaction, write-lock the page `SUPERBLOCK_ID`, assign `sb->magic` and
`sb->root_block`, and let the destructors release and commit. The constants
`SUPERBLOCK_ID`, `NULL_BLOCK_ID` and `btree_superblock_t::expected_magic` are
declared outside `slice.cc` and are arguments here. -/
def btree_slice_t.create (SUPERBLOCK_ID NULL_BLOCK_ID : block_id_t)
    (expected_magic : block_magic_t) (cache : cache_t) : cache_t :=
  let transactor : transactor_t := { access := .rwi_write }
  let superblock := buf_lock_t.acquire cache transactor SUPERBLOCK_ID .rwi_write
  let sb := superblock.data
  let sb := { sb with magic := expected_magic }
  let sb := { sb with root_block := NULL_BLOCK_ID }
  buf_lock_t.release { superblock with data := sb } cache

/-! ## Token generator: arithmetic of the token layout -/

theorem shift_mod_eq (a : Nat) : (a <<< 32) % 2 ^ 64 = 2 ^ 32 * (a % 2 ^ 32) := by
  rw [Nat.shiftLeft_eq, show (2:Nat) ^ 64 = 2 ^ 32 * 2 ^ 32 by norm_num,
    Nat.mul_mod_mul_right, Nat.mul_comm]

theorem cas_layout (a c : Nat) (hc : c < 2 ^ 32) :
    ((a <<< 32) % 2 ^ 64) ||| c = 2 ^ 32 * (a % 2 ^ 32) + c := by
  rw [shift_mod_eq, Nat.mul_add_lt_is_or hc]

theorem cas_layout_mod (a c : Nat) (hc : c < 2 ^ 32) :
    (((a <<< 32) % 2 ^ 64) ||| c) % 2 ^ 32 = c := by
  rw [cas_layout a c hc, Nat.mul_add_mod, Nat.mod_eq_of_lt hc]

theorem cas_layout_div (a c : Nat) (hc : c < 2 ^ 32) :
    (((a <<< 32) % 2 ^ 64) ||| c) / 2 ^ 32 = a % 2 ^ 32 := by
  rw [cas_layout a c hc, Nat.mul_add_div (by norm_num), Nat.div_eq_of_lt hc, Nat.add_zero]

theorem counter_lt (n : Nat) : (n + 1) % 2 ^ 32 < 2 ^ 32 := Nat.mod_lt _ (by norm_num)

theorem gen_castime_counter (s : btree_slice_t) (t : repli_timestamp) :
    (s.gen_castime t).1.counter = (s.cas_counter_ + 1) % 2 ^ 32 := by
  simp only [btree_slice_t.gen_castime, castime_t.counter]
  exact cas_layout_mod _ _ (counter_lt _)

theorem gen_castime_state (s : btree_slice_t) (t : repli_timestamp) :
    (s.gen_castime t).2.cas_counter_ = (s.cas_counter_ + 1) % 2 ^ 32 := rfl

theorem gen_castime_timestamp (s : btree_slice_t) (t : repli_timestamp) :
    (s.gen_castime t).1.timestamp = t := rfl

theorem dummy_is_dummy : castime_t.dummy.is_dummy = true := by decide

/-! ## C1 -/

/-- C1, as stated, fails at the largest counter value: with `cas_counter_ =
2^32 - 1` the increment wraps, so the token carries counter `0` and the slice is
left at `0`, not at `n + 1 = 2^32`. -/
theorem gen_castime_wraps :
    ((⟨2 ^ 32 - 1, none⟩ : btree_slice_t).gen_castime ⟨0⟩).1.counter ≠ (2 ^ 32 - 1) + 1 ∧
    ((⟨2 ^ 32 - 1, none⟩ : btree_slice_t).gen_castime ⟨0⟩).2.cas_counter_ ≠ (2 ^ 32 - 1) + 1 ∧
    ((⟨2 ^ 32 - 1, none⟩ : btree_slice_t).gen_castime ⟨0⟩).1.counter = 0 ∧
    ((⟨2 ^ 32 - 1, none⟩ : btree_slice_t).gen_castime ⟨0⟩).2.cas_counter_ = 0 := by
  decide

/-- C1 (amended): for every slice state with counter `n` and every 32-bit clock
reading `t`, `gen_castime` returns a castime whose timestamp is `t` and whose
cas has high 32 bits `t` and low 32 bits the incremented counter
`c = (n + 1) mod 2^32`, that is `cas = (t << 32) | c`; it leaves the slice's
counter at `c`; `c = n + 1` whenever `n + 1 < 2^32`, and the first token of a
fresh slice carries counter 1. -/
theorem gen_castime_layout (s : btree_slice_t) (t : repli_timestamp) (ht : t.time < 2 ^ 32) :
    (s.gen_castime t).1.timestamp = t ∧
    (s.gen_castime t).1.high = t.time ∧
    (s.gen_castime t).1.counter = (s.cas_counter_ + 1) % 2 ^ 32 ∧
    (s.gen_castime t).1.proposed_cas = (t.time <<< 32) ||| ((s.cas_counter_ + 1) % 2 ^ 32) ∧
    (s.gen_castime t).2.cas_counter_ = (s.cas_counter_ + 1) % 2 ^ 32 ∧
    (s.cas_counter_ + 1 < 2 ^ 32 → (s.cas_counter_ + 1) % 2 ^ 32 = s.cas_counter_ + 1) ∧
    (∀ m, ((btree_slice_t.ctor m).gen_castime t).1.counter = 1) := by
  refine ⟨rfl, ?_, gen_castime_counter s t, ?_, rfl, fun h => Nat.mod_eq_of_lt h, ?_⟩
  · simp only [btree_slice_t.gen_castime, castime_t.high]
    rw [cas_layout_div _ _ (counter_lt _), Nat.mod_eq_of_lt ht]
  · have h64 : t.time <<< 32 < 2 ^ 64 := by
      rw [Nat.shiftLeft_eq]
      calc t.time * 2 ^ 32 < 2 ^ 32 * 2 ^ 32 := Nat.mul_lt_mul_of_pos_right ht (by norm_num)
        _ = 2 ^ 64 := by norm_num
    simp only [btree_slice_t.gen_castime, Nat.mod_eq_of_lt h64]
  · intro m
    rw [gen_castime_counter]
    rfl

theorem gen_castime_layout_witness :
    ((⟨7, none⟩ : btree_slice_t).gen_castime ⟨5⟩).1.timestamp = ⟨5⟩ ∧
    ((⟨7, none⟩ : btree_slice_t).gen_castime ⟨5⟩).1.high = 5 ∧
    ((⟨7, none⟩ : btree_slice_t).gen_castime ⟨5⟩).1.counter = 8 ∧
    ((⟨7, none⟩ : btree_slice_t).gen_castime ⟨5⟩).1.proposed_cas = 21474836488 ∧
    ((⟨7, none⟩ : btree_slice_t).gen_castime ⟨5⟩).2.cas_counter_ = 8 := by
  have h := gen_castime_layout ⟨7, none⟩ ⟨5⟩ (by decide)
  exact ⟨h.1, h.2.1, h.2.2.1, h.2.2.2.1, h.2.2.2.2.1⟩

/-! ## C2 -/

theorem gen_castime_seq_final (ts : List repli_timestamp) (s : btree_slice_t)
    (hs : s.cas_counter_ < 2 ^ 32) :
    (gen_castime_seq ts s).2 =
      { cas_counter_ := (s.cas_counter_ + ts.length) % 2 ^ 32, masterstore_ := s.masterstore_ } := by
  induction ts generalizing s with
  | nil =>
    cases s
    simp only [gen_castime_seq, List.length_nil, Nat.add_zero] at hs ⊢
    rw [Nat.mod_eq_of_lt hs]
  | cons t ts ih =>
    simp only [gen_castime_seq, List.length_cons]
    rw [ih _ (by rw [gen_castime_state]; exact counter_lt _)]
    simp only [gen_castime_state, btree_slice_t.gen_castime, Nat.mod_add_mod]
    congr 2
    omega

theorem gen_castime_seq_bounds (ts : List repli_timestamp) (s : btree_slice_t)
    (h : s.cas_counter_ + ts.length < 2 ^ 32) :
    (∀ c ∈ (gen_castime_seq ts s).1,
      s.cas_counter_ < c.counter ∧ c.counter ≤ s.cas_counter_ + ts.length) ∧
    List.Pairwise (fun a b => a.counter < b.counter) (gen_castime_seq ts s).1 := by
  induction ts generalizing s with
  | nil => simp [gen_castime_seq]
  | cons t ts ih =>
    simp only [List.length_cons] at h
    have hstep : (s.gen_castime t).2.cas_counter_ = s.cas_counter_ + 1 := by
      rw [gen_castime_state, Nat.mod_eq_of_lt (by omega)]
    have hhead : (s.gen_castime t).1.counter = s.cas_counter_ + 1 := by
      rw [gen_castime_counter, Nat.mod_eq_of_lt (by omega)]
    obtain ⟨hb, hp⟩ := ih (s.gen_castime t).2 (by rw [hstep]; omega)
    rw [hstep] at hb
    simp only [gen_castime_seq, List.length_cons, List.mem_cons, List.pairwise_cons]
    refine ⟨?_, ?_, hp⟩
    · rintro c (rfl | hc)
      · rw [hhead]; omega
      · have := hb c hc
        omega
    · intro c hc
      have := hb c hc
      rw [hhead]
      omega

/-- After `2^32` tokens the counter of a fresh slice is back at `0`, so the
next token generated at the same clock reading repeats the first one. -/
theorem gen_castime_reuse (t : repli_timestamp) (m : Option Nat) :
    ((gen_castime_seq (List.replicate (2 ^ 32) t) (btree_slice_t.ctor m)).2.gen_castime t).1 =
      ((btree_slice_t.ctor m).gen_castime t).1 := by
  rw [gen_castime_seq_final _ _ (by simp [btree_slice_t.ctor]), List.length_replicate]
  simp [btree_slice_t.ctor, btree_slice_t.gen_castime]

/-- C2, as stated, fails when the counter wraps. A slice whose counter is
`2^32 - 2` (the state of a fresh slice after `2^32 - 2` calls) returns, on its
next two calls, tokens with counters `2^32 - 1` and `0`: not increasing. -/
theorem gen_castime_seq_not_increasing :
    (gen_castime_seq (List.replicate (2 ^ 32 - 2) ⟨0⟩) (btree_slice_t.ctor none)).2
      = ⟨2 ^ 32 - 2, none⟩ ∧
    (gen_castime_seq [⟨0⟩, ⟨0⟩] ⟨2 ^ 32 - 2, none⟩).1.map castime_t.counter = [2 ^ 32 - 1, 0] ∧
    ¬ List.Pairwise (fun a b => a.counter < b.counter)
      (gen_castime_seq [⟨0⟩, ⟨0⟩] ⟨2 ^ 32 - 2, none⟩).1 := by
  refine ⟨?_, by decide, by decide⟩
  rw [gen_castime_seq_final _ _ (by simp [btree_slice_t.ctor]), List.length_replicate]
  simp [btree_slice_t.ctor]

/-- C2 (amended): for every sequence of `gen_castime` calls on one slice during
which the 32-bit counter does not wrap (the counter before the first call plus
the number of calls is below `2^32`), whatever the clock readings are, the
counter components of the returned tokens are strictly increasing in call order
and no two returned tokens are equal. -/
theorem gen_castime_seq_increasing (ts : List repli_timestamp) (s : btree_slice_t)
    (h : s.cas_counter_ + ts.length < 2 ^ 32) :
    List.Pairwise (fun a b => a.counter < b.counter) (gen_castime_seq ts s).1 ∧
    List.Pairwise (fun a b => a.proposed_cas ≠ b.proposed_cas) (gen_castime_seq ts s).1 ∧
    (gen_castime_seq ts s).1.Nodup := by
  have hp := (gen_castime_seq_bounds ts s h).2
  refine ⟨hp, hp.imp ?_, hp.imp ?_⟩
  · intro a b hab heq
    simp only [castime_t.counter, heq] at hab
    exact Nat.lt_irrefl _ hab
  · intro a b hab heq
    rw [heq] at hab
    exact Nat.lt_irrefl _ hab

theorem gen_castime_seq_increasing_witness :
    List.Pairwise (fun a b => a.counter < b.counter)
      (gen_castime_seq [⟨9⟩, ⟨9⟩, ⟨3⟩] (btree_slice_t.ctor none)).1 ∧
    List.Pairwise (fun a b => a.proposed_cas ≠ b.proposed_cas)
      (gen_castime_seq [⟨9⟩, ⟨9⟩, ⟨3⟩] (btree_slice_t.ctor none)).1 ∧
    (gen_castime_seq [⟨9⟩, ⟨9⟩, ⟨3⟩] (btree_slice_t.ctor none)).1.Nodup :=
  gen_castime_seq_increasing [⟨9⟩, ⟨9⟩, ⟨3⟩] (btree_slice_t.ctor none) (by decide)

/-! ## C3 -/

theorem gen_castime_not_dummy (s : btree_slice_t) (t : repli_timestamp) :
    (s.gen_castime t).1.is_dummy = false := by
  by_cases ht : t.time = 2 ^ 32 - 1
  · have hcas : (s.gen_castime t).1.proposed_cas ≠ 0 := by
      simp only [btree_slice_t.gen_castime]
      rw [cas_layout _ _ (counter_lt _), ht]
      norm_num
    simp [castime_t.is_dummy, hcas]
  · have ht' : ¬ t.time = 4294967295 := ht
    simp [castime_t.is_dummy, gen_castime_timestamp, repli_timestamp.invalid, ht']

/-- C3: for every slice state and every clock reading, `generate_if_necessary`
applied to the dummy castime returns a castime for which `is_dummy()` is
false. -/
theorem generate_if_necessary_dummy (s : btree_slice_t) (t : repli_timestamp) :
    (s.generate_if_necessary t castime_t.dummy).1.is_dummy = false := by
  rw [btree_slice_t.generate_if_necessary, if_pos dummy_is_dummy]
  exact gen_castime_not_dummy s t

/-! ## C4 -/

/-- C4: caller-supplied values pass through unmodified. For every castime `x`
with `is_dummy()` false, `generate_if_necessary(x)` returns exactly `x` (and
leaves the slice as it was); for every timestamp `x` whose time differs from the
invalid sentinel's, `generate_if_necessary(x)` returns exactly `x`; in both
cases the result is the same for every clock reading and every slice state. -/
theorem generate_if_necessary_passthrough :
    (∀ (x : castime_t), x.is_dummy = false →
      ∀ (s : btree_slice_t) (t : repli_timestamp),
        s.generate_if_necessary t x = (x, s) ∧
        ∀ (s' : btree_slice_t) (t' : repli_timestamp),
          (s'.generate_if_necessary t' x).1 = (s.generate_if_necessary t x).1) ∧
    (∀ (x : repli_timestamp), x.time ≠ repli_timestamp.invalid.time →
      ∀ (s : btree_slice_t) (t : repli_timestamp),
        s.generate_if_necessary_timestamp t x = x ∧
        ∀ (s' : btree_slice_t) (t' : repli_timestamp),
          s'.generate_if_necessary_timestamp t' x = s.generate_if_necessary_timestamp t x) := by
  constructor
  · intro x hx s t
    have key : ∀ (s : btree_slice_t) (t : repli_timestamp),
        s.generate_if_necessary t x = (x, s) := by
      intro s t
      simp [btree_slice_t.generate_if_necessary, hx]
    exact ⟨key s t, fun s' t' => by rw [key s' t', key s t]⟩
  · intro x hx s t
    have key : ∀ (s : btree_slice_t) (t : repli_timestamp),
        s.generate_if_necessary_timestamp t x = x := by
      intro s t
      simp [btree_slice_t.generate_if_necessary_timestamp, hx]
    exact ⟨key s t, fun s' t' => by rw [key s' t', key s t]⟩

theorem generate_if_necessary_passthrough_witness :
    ((⟨3, none⟩ : btree_slice_t).generate_if_necessary ⟨100⟩ ⟨42, ⟨7⟩⟩ = (⟨42, ⟨7⟩⟩, ⟨3, none⟩)) ∧
    ((⟨3, none⟩ : btree_slice_t).generate_if_necessary_timestamp ⟨100⟩ ⟨7⟩ = ⟨7⟩) :=
  ⟨(generate_if_necessary_passthrough.1 ⟨42, ⟨7⟩⟩ (by decide) ⟨3, none⟩ ⟨100⟩).1,
   (generate_if_necessary_passthrough.2 ⟨7⟩ (by decide) ⟨3, none⟩ ⟨100⟩).1⟩

/-! ## C5 -/

/-- C5, as stated, fails when the clock itself reads the invalid time: the
timestamp overload then returns the clock reading, which is the sentinel. -/
theorem generate_if_necessary_timestamp_invalid_clock :
    (⟨0, none⟩ : btree_slice_t).generate_if_necessary_timestamp ⟨4294967295⟩
      repli_timestamp.invalid = repli_timestamp.invalid := by
  decide

/-- C5 (amended): for every clock reading, `generate_if_necessary` applied to
the invalid timestamp sentinel returns the clock reading; so for every clock
reading whose time is not the invalid one it returns a timestamp distinct from
the invalid sentinel. -/
theorem generate_if_necessary_timestamp_invalid (s : btree_slice_t) (t : repli_timestamp) :
    s.generate_if_necessary_timestamp t repli_timestamp.invalid = t ∧
    (t.time ≠ repli_timestamp.invalid.time →
      s.generate_if_necessary_timestamp t repli_timestamp.invalid ≠ repli_timestamp.invalid) := by
  have h : s.generate_if_necessary_timestamp t repli_timestamp.invalid = t := by
    simp [btree_slice_t.generate_if_necessary_timestamp]
  rw [h]
  exact ⟨rfl, fun ht heq => ht (by rw [heq])⟩

theorem generate_if_necessary_timestamp_invalid_witness :
    (⟨0, none⟩ : btree_slice_t).generate_if_necessary_timestamp ⟨1300000000⟩
        repli_timestamp.invalid = ⟨1300000000⟩ ∧
    (⟨0, none⟩ : btree_slice_t).generate_if_necessary_timestamp ⟨1300000000⟩
        repli_timestamp.invalid ≠ repli_timestamp.invalid ∧
    (⟨0, none⟩ : btree_slice_t).generate_if_necessary_timestamp repli_timestamp.invalid
        repli_timestamp.invalid = repli_timestamp.invalid :=
  ⟨(generate_if_necessary_timestamp_invalid ⟨0, none⟩ ⟨1300000000⟩).1,
   (generate_if_necessary_timestamp_invalid ⟨0, none⟩ ⟨1300000000⟩).2 (by decide),
   (generate_if_necessary_timestamp_invalid ⟨0, none⟩ repli_timestamp.invalid).1⟩

/-! ## C10 -/

/-- C10: numeric order of tokens is not guarded against clock rollback. There
are a slice state (counter within 32 bits) and 32-bit clock readings `t1 > t2`
such that two successive `gen_castime` calls, the first reading `t1` and the
second reading `t2`, return cas values with the second numerically smaller than
the first although the second has the larger counter. -/
theorem gen_castime_clock_rollback :
    ∃ (s : btree_slice_t) (t1 t2 : repli_timestamp),
      s.cas_counter_ < 2 ^ 32 ∧ t1.time < 2 ^ 32 ∧ t2.time < 2 ^ 32 ∧
      t2.time < t1.time ∧
      (s.gen_castime t1).1.timestamp = t1 ∧
      ((s.gen_castime t1).2.gen_castime t2).1.timestamp = t2 ∧
      ((s.gen_castime t1).2.gen_castime t2).1.proposed_cas < (s.gen_castime t1).1.proposed_cas ∧
      (s.gen_castime t1).1.counter < ((s.gen_castime t1).2.gen_castime t2).1.counter :=
  ⟨btree_slice_t.ctor none, ⟨2⟩, ⟨1⟩, by decide, by decide, by decide, by decide, rfl, rfl,
    by decide, by decide⟩

/-! ## C6 -/

/-- C6: for every prior content of the store, after `create()` the superblock
page (`SUPERBLOCK_ID`) holds `magic = expected_magic` and
`root_block = NULL_BLOCK_ID`, and no page other than the superblock is
changed. -/
theorem create_superblock (SUPERBLOCK_ID NULL_BLOCK_ID : block_id_t)
    (expected_magic : block_magic_t) (cache : cache_t) :
    (btree_slice_t.create SUPERBLOCK_ID NULL_BLOCK_ID expected_magic cache SUPERBLOCK_ID).magic
      = expected_magic ∧
    (btree_slice_t.create SUPERBLOCK_ID NULL_BLOCK_ID expected_magic cache
      SUPERBLOCK_ID).root_block = NULL_BLOCK_ID ∧
    (∀ id : block_id_t, id ≠ SUPERBLOCK_ID →
      btree_slice_t.create SUPERBLOCK_ID NULL_BLOCK_ID expected_magic cache id = cache id) := by
  refine ⟨?_, ?_, ?_⟩
  · simp [btree_slice_t.create, buf_lock_t.acquire, buf_lock_t.release]
  · simp [btree_slice_t.create, buf_lock_t.acquire, buf_lock_t.release]
  · intro id hid
    simp [btree_slice_t.create, buf_lock_t.acquire, buf_lock_t.release, Function.update, hid]

theorem create_superblock_witness :
    (btree_slice_t.create 0 4294967295 1234 (fun id => ⟨id + 10, id, [id]⟩) 0).magic = 1234 ∧
    (btree_slice_t.create 0 4294967295 1234 (fun id => ⟨id + 10, id, [id]⟩) 0).root_block
      = 4294967295 ∧
    btree_slice_t.create 0 4294967295 1234 (fun id => ⟨id + 10, id, [id]⟩) 5 = ⟨15, 5, [5]⟩ :=
  ⟨(create_superblock 0 4294967295 1234 (fun id => ⟨id + 10, id, [id]⟩)).1,
   (create_superblock 0 4294967295 1234 (fun id => ⟨id + 10, id, [id]⟩)).2.1,
   (create_superblock 0 4294967295 1234 (fun id => ⟨id + 10, id, [id]⟩)).2.2 5 (by decide)⟩

/-! ## C7 -/

/-- C7: for every key, data, flags, exptime and castime, `set`, `add` and
`replace` call the set delegate with their own operation-kind tag and
`unique = 0`, and `cas` calls it with `set_type_cas` and the caller's `unique`;
in all four the delegate receives the caller's key, data, flags and exptime and
the token `generate_if_necessary(castime)`, and the operation returns the
delegate's result unchanged. -/
theorem set_family_dispatch {ρ : Type}
    (btree_set : store_key_t → btree_slice_t → data_provider_t → set_type_t → mcflags_t →
      exptime_t → cas_t → castime_t → ρ)
    (s : btree_slice_t) (t : repli_timestamp) (key : store_key_t) (data : data_provider_t)
    (flags : mcflags_t) (exptime : exptime_t) (unique : cas_t) (castime : castime_t) :
    (s.set btree_set t key data flags exptime castime).1 =
      btree_set key (s.generate_if_necessary t castime).2 data set_type_t.set_type_set flags
        exptime 0 (s.generate_if_necessary t castime).1 ∧
    (s.add btree_set t key data flags exptime castime).1 =
      btree_set key (s.generate_if_necessary t castime).2 data set_type_t.set_type_add flags
        exptime 0 (s.generate_if_necessary t castime).1 ∧
    (s.replace btree_set t key data flags exptime castime).1 =
      btree_set key (s.generate_if_necessary t castime).2 data set_type_t.set_type_replace flags
        exptime 0 (s.generate_if_necessary t castime).1 ∧
    (s.cas btree_set t key data flags exptime unique castime).1 =
      btree_set key (s.generate_if_necessary t castime).2 data set_type_t.set_type_cas flags
        exptime unique (s.generate_if_necessary t castime).1 :=
  ⟨rfl, rfl, rfl, rfl⟩

/-! ## C8 -/

theorem handed_fresh (op : store_op) (s : btree_slice_t) (t : repli_timestamp)
    (h : op.castime_mutation_with_dummy = true) :
    op.handed s t = (some (.castime (s.gen_castime t).1), (s.gen_castime t).2) := by
  cases op <;>
    simp_all [store_op.castime_mutation_with_dummy, store_op.mutation_with_sentinel,
      store_op.handed, btree_slice_t.set, btree_slice_t.add, btree_slice_t.replace,
      btree_slice_t.cas, btree_slice_t.incr, btree_slice_t.decr, btree_slice_t.append,
      btree_slice_t.prepend, btree_slice_t.generate_if_necessary]

theorem fresh_generates (op : store_op) (h : op.castime_mutation_with_dummy = true) :
    op.generates = true := by
  cases op <;>
    simp_all [store_op.castime_mutation_with_dummy, store_op.mutation_with_sentinel,
      store_op.generates]

theorem generate_if_necessary_state (s : btree_slice_t) (t : repli_timestamp)
    (c : castime_t) :
    (s.generate_if_necessary t c).2.cas_counter_ =
      if c.is_dummy = true then (s.cas_counter_ + 1) % 2 ^ 32 else s.cas_counter_ := by
  unfold btree_slice_t.generate_if_necessary
  split <;> rfl

theorem handed_state (op : store_op) (s : btree_slice_t) (t : repli_timestamp) :
    (op.handed s t).2.cas_counter_ =
      if op.generates = true then (s.cas_counter_ + 1) % 2 ^ 32 else s.cas_counter_ := by
  cases op <;>
    first
      | rfl
      | exact generate_if_necessary_state s t _

theorem run_ops_counters (ops : List (store_op × repli_timestamp)) (s : btree_slice_t)
    (h : generations ops ≤ 2 ^ 32) :
    (∀ e ∈ (run_ops ops s).1, e.1.castime_mutation_with_dummy = true →
      ∃ (c : castime_t) (k : Nat), e.2 = some (.castime c) ∧
        1 ≤ k ∧ k ≤ generations ops ∧ c.counter = (s.cas_counter_ + k) % 2 ^ 32) ∧
    List.Pairwise
      (fun a b => a.1.castime_mutation_with_dummy = true →
        b.1.castime_mutation_with_dummy = true → a.2 ≠ b.2)
      (run_ops ops s).1 := by
  induction ops generalizing s with
  | nil => simp [run_ops]
  | cons x ops ih =>
    obtain ⟨op, t⟩ := x
    have hstate := handed_state op s t
    by_cases hg : op.generates = true
    · simp only [generations, hg, if_true] at h hstate ⊢
      obtain ⟨hb, hp⟩ := ih (op.handed s t).2 (by omega)
      simp only [run_ops, List.mem_cons, List.pairwise_cons]
      refine ⟨?_, ?_, hp⟩
      · rintro e (rfl | he) hfresh
        · refine ⟨(s.gen_castime t).1, 1, ?_, Nat.le_refl 1, by omega, ?_⟩
          · simp only [handed_fresh op s t hfresh]
          · exact gen_castime_counter s t
        · obtain ⟨c, k, hc, h1, h2, h3⟩ := hb e he hfresh
          refine ⟨c, k + 1, hc, by omega, by omega, ?_⟩
          rw [h3, hstate]
          omega
      · intro e he hfresh hfresh' heq
        obtain ⟨c, k, hc, h1, h2, h3⟩ := hb e he hfresh'
        have hc' : some (token_t.castime (s.gen_castime t).1) = some (token_t.castime c) := by
          rw [← hc, ← heq, handed_fresh op s t hfresh]
        have hcc : (s.gen_castime t).1 = c := by
          injection hc' with hc'
          injection hc'
        have hcnt : c.counter = (s.cas_counter_ + 1) % 2 ^ 32 := by
          rw [← hcc, gen_castime_counter]
        rw [h3, hstate] at hcnt
        omega
    · have hnf : ¬ op.castime_mutation_with_dummy = true := fun hf => hg (fresh_generates op hf)
      have hg' : op.generates = false := by simpa using hg
      simp only [generations, hg', Bool.false_eq_true, if_false, Nat.zero_add] at h hstate ⊢
      obtain ⟨hb, hp⟩ := ih (op.handed s t).2 h
      simp only [run_ops, List.mem_cons, List.pairwise_cons]
      refine ⟨?_, ?_, hp⟩
      · rintro e (rfl | he) hfresh
        · exact absurd hfresh hnf
        · obtain ⟨c, k, hc, h1, h2, h3⟩ := hb e he hfresh
          exact ⟨c, k, hc, h1, h2, by rw [h3, hstate]⟩
      · intro e _ hfresh
        exact absurd hfresh hnf

/-- C8, as stated, fails for `delete_key`: invoked with the invalid timestamp
it hands its delegate the clock reading, and two deletes that read the same
clock value hand their delegates the same tag. -/
theorem delete_key_tokens_collide :
    (store_op.delete_key [1] repli_timestamp.invalid).mutation_with_sentinel = true ∧
    (store_op.delete_key [2] repli_timestamp.invalid).mutation_with_sentinel = true ∧
    (run_ops [(store_op.delete_key [1] repli_timestamp.invalid, ⟨5⟩),
              (store_op.delete_key [2] repli_timestamp.invalid, ⟨5⟩)]
        (btree_slice_t.ctor none)).1.map Prod.snd
      = [some (token_t.timestamp ⟨5⟩), some (token_t.timestamp ⟨5⟩)] ∧
    ¬ List.Pairwise
      (fun a b => a.1.mutation_with_sentinel = true →
        b.1.mutation_with_sentinel = true → a.2 ≠ b.2)
      (run_ops [(store_op.delete_key [1] repli_timestamp.invalid, ⟨5⟩),
                (store_op.delete_key [2] repli_timestamp.invalid, ⟨5⟩)]
        (btree_slice_t.ctor none)).1 := by
  refine ⟨by decide, by decide, by decide, by decide⟩

/-- C8 (amended): each of set, add, replace, cas, incr, decr, append and
prepend, invoked with the dummy castime, hands its delegate the token that
`gen_castime` generates at that call, and in any run of operations on one slice
in which `gen_castime` is called at most `2^32` times (so in every run during
which the 32-bit counter does not wrap), the tokens that any two such
operations hand to their delegates are different; `delete_key` invoked with the
invalid timestamp hands its delegate the clock reading. -/
theorem mutation_tokens_distinct :
    (∀ (op : store_op) (s : btree_slice_t) (t : repli_timestamp),
      op.castime_mutation_with_dummy = true →
        op.handed s t = (some (.castime (s.gen_castime t).1), (s.gen_castime t).2)) ∧
    (∀ (key : store_key_t) (timestamp : repli_timestamp) (s : btree_slice_t)
      (t : repli_timestamp), timestamp.time = repli_timestamp.invalid.time →
        (store_op.delete_key key timestamp).handed s t = (some (.timestamp t), s)) ∧
    (∀ (ops : List (store_op × repli_timestamp)) (s : btree_slice_t),
      generations ops ≤ 2 ^ 32 →
        List.Pairwise
          (fun a b => a.1.castime_mutation_with_dummy = true →
            b.1.castime_mutation_with_dummy = true → a.2 ≠ b.2)
          (run_ops ops s).1) := by
  refine ⟨handed_fresh, ?_, fun ops s h => (run_ops_counters ops s h).2⟩
  intro key timestamp s t h
  simp [store_op.handed, btree_slice_t.delete_key,
    btree_slice_t.generate_if_necessary_timestamp, h]

theorem mutation_tokens_distinct_witness :
    (store_op.set [1] [2] 0 0 castime_t.dummy).handed (btree_slice_t.ctor none) ⟨5⟩
      = (some (token_t.castime ⟨21474836481, ⟨5⟩⟩), ⟨1, none⟩) ∧
    (store_op.delete_key [1] repli_timestamp.invalid).handed (btree_slice_t.ctor none) ⟨5⟩
      = (some (token_t.timestamp ⟨5⟩), btree_slice_t.ctor none) ∧
    List.Pairwise
      (fun a b => a.1.castime_mutation_with_dummy = true →
        b.1.castime_mutation_with_dummy = true → a.2 ≠ b.2)
      (run_ops [(store_op.get [1], ⟨5⟩),
                (store_op.rget [1] [9] false false 10, ⟨5⟩),
                (store_op.set [1] [2] 0 0 castime_t.dummy, ⟨5⟩),
                (store_op.delete_key [1] repli_timestamp.invalid, ⟨5⟩),
                (store_op.incr [1] 3 ⟨77, ⟨4⟩⟩, ⟨5⟩),
                (store_op.add [1] [9] 0 0 castime_t.dummy, ⟨5⟩),
                (store_op.cas [1] [9] 0 0 21474836481 castime_t.dummy, ⟨5⟩)]
        ⟨2 ^ 32 - 2, none⟩).1 :=
  ⟨mutation_tokens_distinct.1 (store_op.set [1] [2] 0 0 castime_t.dummy)
     (btree_slice_t.ctor none) ⟨5⟩ (by decide),
   mutation_tokens_distinct.2.1 [1] repli_timestamp.invalid (btree_slice_t.ctor none) ⟨5⟩
     (by decide),
   mutation_tokens_distinct.2.2 _ ⟨2 ^ 32 - 2, none⟩ (by decide)⟩

end Slice
